import Mathlib

/-!
# Verification of the WaveformOverview view (peaks.js)

A shallow embedding of `src/main/views/waveform.overview.js`: the overview
waveform view of peaks.js.  JavaScript numbers are modelled as rationals
(`ℚ`), the DOM/Konva collaborators as an explicit effect trace, and the
event-driven control flow (resize debouncing, highlight synchronization,
pointer seeking, teardown) as a step function on an explicit state record.
-/

namespace WaveformOverview

/-- The resolution attributes exposed by a waveform dataset's adapter
(`data.adapter.sample_rate`, `data.adapter.scale`).  The dataset itself is an
external collaborator (the waveform-data library); only these two numbers are
read by the view. -/
structure Adapter where
  sample_rate : ℚ
  scale : ℚ
deriving DecidableEq, Repr

/-- The identity of the view's active dataset: either the original
full-resolution dataset supplied at construction, or the result of
`originalWaveformData.resample(w)` for some pixel width `w`. -/
inductive WaveformData where
  | original : WaveformData
  | resampled (width : ℚ) : WaveformData
deriving DecidableEq, Repr

/-- The attributes of the Konva highlight rectangle created by
`_createHighlightRect` and updated by `_updateHighlightRect`. -/
structure HighlightRect where
  startOffset : ℚ
  x : ℚ
  y : ℚ
  width : ℚ
  height : ℚ
  stroke : String
  strokeWidth : ℚ
  fill : String
  opacity : ℚ
  cornerRadius : ℚ
deriving DecidableEq, Repr

/-- The Konva stage (only its geometry is relevant to the view's logic). -/
structure Stage where
  width : ℚ
  height : ℚ
deriving DecidableEq, Repr

/-- Calls the view makes into its collaborators (dataset, Konva layers,
player, timer queue).  Each handler appends the calls it performs, in order,
to the state's effect trace. -/
inductive Action where
  | resample (width : ℚ)
  | seek (time : ℚ)
  | updatePlayhead (time : ℚ)
  | stopPlayhead (time : ℚ)
  | drawWaveformLayer
  | setHighlightAttrs (x width : ℚ)
  | drawHighlightLayer
  | updatePoints (startTime endTime : ℚ)
  | updateSegments (startTime endTime : ℚ)
  | setStageWidth (width : ℚ)
  | clearTimeout (id : ℕ)
  | setTimeout (id : ℕ)
  | stageDestroy
deriving DecidableEq, Repr

/-- Construction-time inputs that never change: the original dataset's
adapter, the adapter of each possible resampled dataset (the external
`resample` operation), and the configuration bag. -/
structure Env where
  origAdapter : Adapter
  resampleAdapter : ℚ → Adapter
  optionsHeight : ℚ
  overviewWaveformColor : String
  overviewHighlightRectangleColor : String

/-- The mutable state owned by a `WaveformOverview` instance, together with
the container's current reported width and the trace of collaborator calls
performed so far. -/
structure State where
  containerWidth : ℚ
  width : ℚ
  height : ℚ
  data : WaveformData
  resizeTimeoutId : Option ℕ
  pendingTimer : Option ℕ
  nextTimerId : ℕ
  stage : Option Stage
  highlightRect : Option HighlightRect
  highlightRectStartTime : ℚ
  highlightRectEndTime : ℚ
  playheadTime : ℚ
  effects : List Action

/-- The adapter of the view's active dataset (`this.data.adapter`). -/
def dataAdapter (env : Env) : WaveformData → Adapter
  | .original => env.origAdapter
  | .resampled w => env.resampleAdapter w

/-- `timeToPixels(time) = Math.floor(time * sample_rate / scale)` for a given
adapter (the code always reads the adapter of the current dataset). -/
def timeToPixels (a : Adapter) (time : ℚ) : ℤ :=
  Int.floor (time * a.sample_rate / a.scale)

/-- `pixelsToTime(pixels) = pixels * scale / sample_rate`. -/
def pixelsToTime (a : Adapter) (pixels : ℚ) : ℚ :=
  pixels * a.scale / a.sample_rate

/-- `getFrameOffset()` always returns 0. -/
def getFrameOffset (_s : State) : ℚ := 0

/-- `getWidth()`. -/
def getWidth (s : State) : ℚ := s.width

/-- `getHeight()`. -/
def getHeight (s : State) : ℚ := s.height

/-- `getWaveformData()` returns the view's active dataset. -/
def getWaveformData (s : State) : WaveformData := s.data

/-- Modelled from the spec: `Utils.clamp` (in `waveform.utils.js`, outside the
embedded source) clamps the horizontal pointer coordinate into `[lo, hi]`. -/
def clamp (x lo hi : ℚ) : ℚ :=
  if x < lo then lo else if x > hi then hi else x

/-- The constructor `WaveformOverview(waveformData, container, peaks)`:
reads the container's width and height (height falling back to
`options.height` when the container reports none), resamples the original
dataset to the container width unless that width is zero, and creates the
stage and layers.  `t0` is `options.mediaElement.currentTime`, passed to the
playhead layer. -/
def initState (env : Env) (cw ch t0 : ℚ) : State :=
  let h : ℚ := if ch = 0 then env.optionsHeight else ch
  { containerWidth := cw
    width := cw
    height := h
    data := if cw ≠ 0 then .resampled cw else .original
    resizeTimeoutId := none
    pendingTimer := none
    nextTimerId := 0
    stage := some ⟨cw, h⟩
    highlightRect := none
    highlightRectStartTime := 0
    highlightRectEndTime := 0
    playheadTime := t0
    effects := if cw ≠ 0 then [.resample cw] else [] }

/-- `_createHighlightRect(startTime, endTime)`: stores the times and adds a
`Konva.Rect` with fixed vertical inset (y = 11, height = view height − 22),
fixed opacity 0.3 and corner radius 2, stroke and fill from configuration.
The rectangle's `x` is not passed, so Konva defaults it to 0. -/
def createHighlightRect (env : Env) (s : State) (startTime endTime : ℚ) : State :=
  let a := dataAdapter env s.data
  let startOffset := timeToPixels a startTime
  let endOffset := timeToPixels a endTime
  { s with
    highlightRectStartTime := startTime
    highlightRectEndTime := endTime
    highlightRect := some
      { startOffset := 0
        x := 0
        y := 11
        width := (endOffset : ℚ) - (startOffset : ℚ)
        stroke := env.overviewHighlightRectangleColor
        strokeWidth := 1
        height := s.height - 11 * 2
        fill := env.overviewHighlightRectangleColor
        opacity := 3 / 10
        cornerRadius := 2 } }

/-- `_updateHighlightRect(startTime, endTime)`: stores the times, sets only
the rectangle's `x` and `width` attributes, and redraws the highlight layer.
(A no-op on the rectangle if none exists; the caller guarantees one does.) -/
def updateHighlightRect (env : Env) (s : State) (startTime endTime : ℚ) : State :=
  let a := dataAdapter env s.data
  let startOffset := timeToPixels a startTime
  let endOffset := timeToPixels a endTime
  { s with
    highlightRectStartTime := startTime
    highlightRectEndTime := endTime
    highlightRect := s.highlightRect.map fun r =>
      { r with x := (startOffset : ℚ), width := (endOffset : ℚ) - (startOffset : ℚ) }
    effects := s.effects ++
      [.setHighlightAttrs (startOffset : ℚ) ((endOffset : ℚ) - (startOffset : ℚ)),
       .drawHighlightLayer] }

/-- `_updateWaveform()` — the full redraw cascade: draw the waveform layer,
reposition the playhead from the player's current time (`playerTime`),
recompute and redraw the highlight rectangle if one exists, then update the
points and segments layers over `[0, pixelsToTime(width))`. -/
def updateWaveform (env : Env) (s : State) (playerTime : ℚ) : State :=
  let s1 := { s with
    effects := s.effects ++ [.drawWaveformLayer, .updatePlayhead playerTime]
    playheadTime := playerTime }
  let s2 :=
    if s1.highlightRect.isSome then
      updateHighlightRect env s1 s1.highlightRectStartTime s1.highlightRectEndTime
    else s1
  let frameStartTime : ℚ := 0
  let frameEndTime := pixelsToTime (dataAdapter env s2.data) s2.width
  { s2 with
    effects := s2.effects ++
      [.updatePoints frameStartTime frameEndTime,
       .updateSegments frameStartTime frameEndTime] }

/-- The guarded `clearTimeout` block that both the `window_resize` handler
and `destroy` begin with: if a timeout id is stored, call `clearTimeout` on
it and null the stored id.  Clearing cancels the timer with that id if it is
still pending (a fired timer is simply absent from the queue). -/
def clearStoredTimeout (s : State) : State :=
  match s.resizeTimeoutId with
  | some id =>
      { s with
        resizeTimeoutId := none
        pendingTimer := if s.pendingTimer = some id then none else s.pendingTimer
        effects := s.effects ++ [.clearTimeout id] }
  | none => s

/-- The `window_resize` handler: clear any stored timeout id first, then — if
the container's reported width is nonzero — update the width and stage width
immediately and arm a fresh 500 ms debounce timer.  `w` is the container's
`clientWidth` at the time the notification is handled. -/
def windowResizeHandler (s : State) (w : ℚ) : State :=
  let s1 := clearStoredTimeout { s with containerWidth := w }
  if s1.containerWidth ≠ 0 then
    { s1 with
      width := s1.containerWidth
      stage := s1.stage.map fun st => { st with width := s1.containerWidth }
      resizeTimeoutId := some s1.nextTimerId
      pendingTimer := some s1.nextTimerId
      nextTimerId := s1.nextTimerId + 1
      effects := s1.effects ++
        [.setStageWidth s1.containerWidth, .setTimeout s1.nextTimerId] }
  else s1

/-- The debounce timer's callback: re-read the container width, resample the
original dataset to it, update the stage width and run the full redraw
cascade.  Only runs when a timer is actually pending; the fired timer is no
longer pending afterwards (the code does not null `_resizeTimeoutId`). -/
def timerFireHandler (env : Env) (s : State) (playerTime : ℚ) : State :=
  match s.pendingTimer with
  | none => s
  | some _ =>
      let w := s.containerWidth
      let s1 := { s with
        pendingTimer := none
        width := w
        data := .resampled w
        stage := s.stage.map fun st => { st with width := w }
        effects := s.effects ++ [.resample w, .setStageWidth w] }
      updateWaveform env s1 playerTime

/-- The `zoomview.displaying` handler: create the highlight rectangle on the
first notification, then (always) update its horizontal bounds. -/
def zoomviewDisplayingHandler (env : Env) (s : State) (startTime endTime : ℚ) : State :=
  let s1 :=
    if s.highlightRect.isNone then createHighlightRect env s startTime endTime
    else s
  updateHighlightRect env s1 startTime endTime

/-- The shared body of the `onMouseDown` / `onMouseMove` callbacks: clamp the
pointer coordinate to `[0, width]`, convert to time, reposition the playhead
immediately, and seek the player to the same time. -/
def mouseSeekHandler (env : Env) (s : State) (mousePosX : ℚ) : State :=
  let x := clamp mousePosX 0 s.width
  let time := pixelsToTime (dataAdapter env s.data) x
  { s with
    playheadTime := time
    effects := s.effects ++ [.updatePlayhead time, .seek time] }

/-- `destroy()`: clear any stored timeout id, then destroy the stage; both
guarded, so a second call finds nothing to do. -/
def destroy (s : State) : State :=
  let s1 : State := clearStoredTimeout s
  match s1.stage with
  | some _ => { s1 with stage := none, effects := s1.effects ++ [.stageDestroy] }
  | none => s1

/-- The notifications the view reacts to while alive.  A `windowResize w`
notification reports that the container's width is now `w`; `timerFire t`
delivers the debounce callback when one is pending, with the player's
current time `t`; `mouseDown` / `mouseMove` carry the raw pointer
x-coordinate. -/
inductive Event where
  | playerPlay (time : ℚ)
  | playerPause (time : ℚ)
  | playerTimeUpdate (time : ℚ)
  | zoomviewDisplaying (startTime endTime : ℚ)
  | windowResize (w : ℚ)
  | timerFire (playerTime : ℚ)
  | mouseDown (x : ℚ)
  | mouseMove (x : ℚ)

/-- One handler invocation of the host event loop. -/
def step (env : Env) (s : State) : Event → State
  | .playerPlay t =>
      { s with playheadTime := t, effects := s.effects ++ [.updatePlayhead t] }
  | .playerPause t =>
      { s with playheadTime := t, effects := s.effects ++ [.stopPlayhead t] }
  | .playerTimeUpdate t =>
      { s with playheadTime := t, effects := s.effects ++ [.updatePlayhead t] }
  | .zoomviewDisplaying a b => zoomviewDisplayingHandler env s a b
  | .windowResize w => windowResizeHandler s w
  | .timerFire t => timerFireHandler env s t
  | .mouseDown x => mouseSeekHandler env s x
  | .mouseMove x => mouseSeekHandler env s x

/-- The states the live view can be in: the constructor's result, closed
under handler invocations. -/
inductive Reachable (env : Env) : State → Prop where
  | init (cw ch t0 : ℚ) : Reachable env (initState env cw ch t0)
  | next {s : State} (hs : Reachable env s) (e : Event) : Reachable env (step env s e)

/-- The widths passed to `originalWaveformData.resample` so far, in order. -/
def resampleWidths (l : List Action) : List ℚ :=
  l.filterMap fun a => match a with | .resample w => some w | _ => none

/-- The active dataset is never one resampled to width zero. -/
def dataOk : WaveformData → Prop
  | .original => True
  | .resampled w => w ≠ 0

/-- Whenever a debounce timer is pending, the container width it will read on
firing is nonzero and its id is the one stored in `_resizeTimeoutId`. -/
def timerOk (s : State) : Prop :=
  match s.pendingTimer with
  | none => True
  | some id => s.containerWidth ≠ 0 ∧ s.resizeTimeoutId = some id

/-- The state invariant maintained by every handler. -/
def Inv (s : State) : Prop := dataOk s.data ∧ timerOk s

/-- A concrete environment used to instantiate universally quantified
results: a dataset with sample rate 44100 and scale 512, and a resample
operation keeping the sample rate. -/
def env0 : Env :=
  { origAdapter := ⟨44100, 512⟩
    resampleAdapter := fun w => ⟨44100, w⟩
    optionsHeight := 100
    overviewWaveformColor := "green"
    overviewHighlightRectangleColor := "grey" }

/-- The highlight rectangle produced in `env0` by a first `(2, 5)` visible
range notification on a 400-pixel-wide, 200-pixel-high view: pixel bounds
x = ⌊2·44100/400⌋ = 220 and width = ⌊5·44100/400⌋ − 220 = 331, vertical
inset 11 (height 200 − 22 = 178), opacity 0.3, corner radius 2. -/
def hrect0 : HighlightRect :=
  { startOffset := 0
    x := 220
    y := 11
    width := 331
    height := 178
    stroke := "grey"
    strokeWidth := 1
    fill := "grey"
    opacity := 3 / 10
    cornerRadius := 2 }

lemma updateHighlightRect_data (env : Env) (s : State) (a b : ℚ) :
    (updateHighlightRect env s a b).data = s.data := rfl

lemma updateHighlightRect_pendingTimer (env : Env) (s : State) (a b : ℚ) :
    (updateHighlightRect env s a b).pendingTimer = s.pendingTimer := rfl

lemma updateHighlightRect_resizeTimeoutId (env : Env) (s : State) (a b : ℚ) :
    (updateHighlightRect env s a b).resizeTimeoutId = s.resizeTimeoutId := rfl

lemma updateHighlightRect_containerWidth (env : Env) (s : State) (a b : ℚ) :
    (updateHighlightRect env s a b).containerWidth = s.containerWidth := rfl

lemma updateHighlightRect_width (env : Env) (s : State) (a b : ℚ) :
    (updateHighlightRect env s a b).width = s.width := rfl

lemma updateWaveform_data (env : Env) (s : State) (t : ℚ) :
    (updateWaveform env s t).data = s.data := by
  simp only [updateWaveform]
  split <;> rfl

lemma updateWaveform_pendingTimer (env : Env) (s : State) (t : ℚ) :
    (updateWaveform env s t).pendingTimer = s.pendingTimer := by
  simp only [updateWaveform]
  split <;> rfl

lemma updateWaveform_resizeTimeoutId (env : Env) (s : State) (t : ℚ) :
    (updateWaveform env s t).resizeTimeoutId = s.resizeTimeoutId := by
  simp only [updateWaveform]
  split <;> rfl

lemma updateWaveform_containerWidth (env : Env) (s : State) (t : ℚ) :
    (updateWaveform env s t).containerWidth = s.containerWidth := by
  simp only [updateWaveform]
  split <;> rfl

lemma updateWaveform_width (env : Env) (s : State) (t : ℚ) :
    (updateWaveform env s t).width = s.width := by
  simp only [updateWaveform]
  split <;> rfl

lemma timerOk_pending {s : State} (h : timerOk s) {j : ℕ}
    (hj : s.pendingTimer = some j) :
    s.containerWidth ≠ 0 ∧ s.resizeTimeoutId = some j := by
  unfold timerOk at h
  rw [hj] at h
  exact h

lemma timerOk_of_pending_none {s : State} (h : s.pendingTimer = none) :
    timerOk s := by
  unfold timerOk
  rw [h]
  trivial

lemma clearStoredTimeout_data (s : State) :
    (clearStoredTimeout s).data = s.data := by
  rcases hrid : s.resizeTimeoutId with _ | i <;> simp [clearStoredTimeout, hrid]

lemma clearStoredTimeout_width (s : State) :
    (clearStoredTimeout s).width = s.width := by
  rcases hrid : s.resizeTimeoutId with _ | i <;> simp [clearStoredTimeout, hrid]

lemma clearStoredTimeout_containerWidth (s : State) :
    (clearStoredTimeout s).containerWidth = s.containerWidth := by
  rcases hrid : s.resizeTimeoutId with _ | i <;> simp [clearStoredTimeout, hrid]

lemma clearStoredTimeout_nextTimerId (s : State) :
    (clearStoredTimeout s).nextTimerId = s.nextTimerId := by
  rcases hrid : s.resizeTimeoutId with _ | i <;> simp [clearStoredTimeout, hrid]

lemma clearStoredTimeout_stage (s : State) :
    (clearStoredTimeout s).stage = s.stage := by
  rcases hrid : s.resizeTimeoutId with _ | i <;> simp [clearStoredTimeout, hrid]

lemma clearStoredTimeout_resizeTimeoutId (s : State) :
    (clearStoredTimeout s).resizeTimeoutId = none ∨ clearStoredTimeout s = s := by
  rcases hrid : s.resizeTimeoutId with _ | i
  · right
    simp [clearStoredTimeout, hrid]
  · left
    simp [clearStoredTimeout, hrid]

/-- As long as any pending timer's id is the stored one, the guarded clear
block leaves neither a stored id nor a pending timer behind. -/
lemma clearStoredTimeout_cleared {s : State}
    (h : ∀ j, s.pendingTimer = some j → s.resizeTimeoutId = some j) :
    (clearStoredTimeout s).resizeTimeoutId = none ∧
    (clearStoredTimeout s).pendingTimer = none := by
  rcases hrid : s.resizeTimeoutId with _ | i
  · rcases hp : s.pendingTimer with _ | j
    · simp [clearStoredTimeout, hrid, hp]
    · exact absurd ((h j hp).symm.trans hrid) (by simp)
  · rcases hp : s.pendingTimer with _ | j
    · simp [clearStoredTimeout, hrid, hp]
    · have hj := h j hp
      rw [hrid] at hj
      obtain rfl : j = i := (Option.some.inj hj).symm
      simp [clearStoredTimeout, hrid, hp]

lemma windowResizeHandler_data (s : State) (w : ℚ) :
    (windowResizeHandler s w).data = s.data := by
  simp only [windowResizeHandler]
  split <;> exact clearStoredTimeout_data _

lemma zoomviewDisplayingHandler_data (env : Env) (s : State) (a b : ℚ) :
    (zoomviewDisplayingHandler env s a b).data = s.data := by
  unfold zoomviewDisplayingHandler
  split <;> rfl

lemma zoomviewDisplayingHandler_timer (env : Env) (s : State) (a b : ℚ) :
    (zoomviewDisplayingHandler env s a b).pendingTimer = s.pendingTimer ∧
    (zoomviewDisplayingHandler env s a b).resizeTimeoutId = s.resizeTimeoutId ∧
    (zoomviewDisplayingHandler env s a b).containerWidth = s.containerWidth := by
  unfold zoomviewDisplayingHandler
  split <;> exact ⟨rfl, rfl, rfl⟩

/-- After the guarded clear block of the resize handler, no timer is pending
(assuming the timer invariant held). -/
lemma windowResizeHandler_cleared {s : State} (w : ℚ) (h : timerOk s) :
    (clearStoredTimeout { s with containerWidth := w }).resizeTimeoutId = none ∧
    (clearStoredTimeout { s with containerWidth := w }).pendingTimer = none := by
  refine clearStoredTimeout_cleared ?_
  intro j hj
  exact (timerOk_pending h (by simpa using hj)).2

/-- The resize handler preserves the timer invariant. -/
lemma windowResizeHandler_timerOk {s : State} (w : ℚ) (h : timerOk s) :
    timerOk (windowResizeHandler s w) := by
  have hcl := windowResizeHandler_cleared w h
  simp only [windowResizeHandler]
  split
  · rename_i hw
    unfold timerOk
    exact ⟨hw, rfl⟩
  · exact timerOk_of_pending_none hcl.2

/-- Every reachable state of the live view satisfies the invariant. -/
lemma reachable_inv (env : Env) (s : State) (h : Reachable env s) : Inv s := by
  induction h with
  | init cw ch t0 =>
      refine ⟨?_, ?_⟩
      · by_cases hcw : cw = 0 <;> simp [initState, dataOk, hcw]
      · simp [initState, timerOk]
  | next hs e ih =>
      obtain ⟨hdata, htimer⟩ := ih
      rename_i s'
      cases e with
      | playerPlay t => exact ⟨hdata, htimer⟩
      | playerPause t => exact ⟨hdata, htimer⟩
      | playerTimeUpdate t => exact ⟨hdata, htimer⟩
      | mouseDown x => exact ⟨hdata, htimer⟩
      | mouseMove x => exact ⟨hdata, htimer⟩
      | zoomviewDisplaying a b =>
          obtain ⟨h1, h2, h3⟩ := zoomviewDisplayingHandler_timer env s' a b
          refine ⟨?_, ?_⟩
          · rw [show (step env s' (.zoomviewDisplaying a b)).data =
                  s'.data from zoomviewDisplayingHandler_data env s' a b]
            exact hdata
          · show timerOk (zoomviewDisplayingHandler env s' a b)
            unfold timerOk at htimer ⊢
            simp only [h1, h2, h3]
            exact htimer
      | windowResize w =>
          refine ⟨?_, ?_⟩
          · rw [show (step env s' (.windowResize w)).data =
                  s'.data from windowResizeHandler_data s' w]
            exact hdata
          · exact windowResizeHandler_timerOk w htimer
      | timerFire t =>
          show Inv (timerFireHandler env s' t)
          unfold timerFireHandler
          cases hp : s'.pendingTimer with
          | none => exact ⟨hdata, htimer⟩
          | some i =>
              have hcw := (timerOk_pending htimer hp).1
              refine ⟨?_, ?_⟩
              · rw [updateWaveform_data]
                exact hcw
              · apply timerOk_of_pending_none
                rw [updateWaveform_pendingTimer]

lemma clearStoredTimeout_resampleWidths (s : State) :
    resampleWidths (clearStoredTimeout s).effects = resampleWidths s.effects := by
  rcases hrid : s.resizeTimeoutId with _ | i <;>
    simp [clearStoredTimeout, hrid, resampleWidths, List.filterMap_append]

lemma zoomviewDisplayingHandler_width (env : Env) (s : State) (a b : ℚ) :
    (zoomviewDisplayingHandler env s a b).width = s.width := by
  unfold zoomviewDisplayingHandler
  split <;> rfl

lemma windowResizeHandler_width (s : State) (w : ℚ) :
    (windowResizeHandler s w).width = if w = 0 then s.width else w := by
  simp only [windowResizeHandler, clearStoredTimeout_containerWidth]
  by_cases hw : w = 0
  · simp [hw, clearStoredTimeout_width]
  · simp [hw]

lemma destroy_of_cleared {s : State} (h1 : s.resizeTimeoutId = none)
    (h2 : s.stage = none) : destroy s = s := by
  simp [destroy, clearStoredTimeout, h1, h2]

/-- Claim C7: `timeToPixels(t)` equals `floor(t * sample_rate / scale)` of the
current adapter, `pixelsToTime(p)` equals `p * scale / sample_rate`, and for
sample rate 44100 and scale 512, `timeToPixels(1.0) = 86`. -/
theorem coordinate_mapping_formulas :
    (∀ (a : Adapter) (t : ℚ),
        timeToPixels a t = Int.floor (t * a.sample_rate / a.scale)) ∧
    (∀ (a : Adapter) (p : ℚ),
        pixelsToTime a p = p * a.scale / a.sample_rate) ∧
    timeToPixels ⟨44100, 512⟩ 1 = 86 := by
  refine ⟨fun _ _ => rfl, fun _ _ => rfl, ?_⟩
  unfold timeToPixels
  norm_num

/-- Claim C6: for every nonnegative pixel value `p` and adapter with positive
sample rate and scale, `timeToPixels (pixelsToTime p)` differs from `p` by at
most 1. -/
theorem timeToPixels_pixelsToTime_roundtrip (a : Adapter) (p : ℚ)
    (_hp : 0 ≤ p) (hsr : 0 < a.sample_rate) (hsc : 0 < a.scale) :
    |((timeToPixels a (pixelsToTime a p) : ℤ) : ℚ) - p| ≤ 1 := by
  have hsr' : a.sample_rate ≠ 0 := ne_of_gt hsr
  have hsc' : a.scale ≠ 0 := ne_of_gt hsc
  have h1 : pixelsToTime a p * a.sample_rate / a.scale = p := by
    unfold pixelsToTime
    field_simp
  unfold timeToPixels
  rw [h1]
  have h2 : ((Int.floor p : ℤ) : ℚ) ≤ p := Int.floor_le p
  have h3 : p < ((Int.floor p : ℤ) : ℚ) + 1 := Int.lt_floor_add_one p
  rw [abs_le]
  constructor <;> linarith

/-- Witness for C6 at `p = 5`, sample rate 44100, scale 512. -/
theorem timeToPixels_pixelsToTime_roundtrip_witness :
    0 ≤ (5 : ℚ) ∧ 0 < (44100 : ℚ) ∧ 0 < (512 : ℚ) ∧
    |((timeToPixels ⟨44100, 512⟩ (pixelsToTime ⟨44100, 512⟩ 5) : ℤ) : ℚ) - 5| ≤ 1 :=
  ⟨by norm_num, by norm_num, by norm_num,
    timeToPixels_pixelsToTime_roundtrip ⟨44100, 512⟩ 5 (by norm_num) (by norm_num)
      (by norm_num)⟩

/-- Claim C10: at construction, a zero container width means no resample call
is made and `getWaveformData` returns the original dataset itself; otherwise
the active dataset is the original resampled to the container width (and
exactly that one resample call is made). -/
theorem init_dataset_selection (env : Env) (cw ch t0 : ℚ) :
    getWaveformData (initState env cw ch t0) =
      (if cw = 0 then WaveformData.original else WaveformData.resampled cw) ∧
    resampleWidths (initState env cw ch t0).effects =
      (if cw = 0 then [] else [cw]) := by
  by_cases h : cw = 0 <;>
    simp [initState, getWaveformData, resampleWidths, h]

/-- Claim C5: on a pointer press and on a drag move at raw coordinate `x`,
the coordinate is clamped to `[0, width]`, converted via `pixelsToTime`, the
playhead is repositioned to that time, and exactly one seek request with the
same time is issued. -/
theorem pointer_seek_clamped_time (env : Env) (s : State) (x : ℚ) :
    (step env s (.mouseDown x)).playheadTime
        = pixelsToTime (dataAdapter env s.data) (clamp x 0 s.width) ∧
    (step env s (.mouseDown x)).effects = s.effects ++
      [.updatePlayhead (pixelsToTime (dataAdapter env s.data) (clamp x 0 s.width)),
       .seek (pixelsToTime (dataAdapter env s.data) (clamp x 0 s.width))] ∧
    (step env s (.mouseMove x)).playheadTime
        = pixelsToTime (dataAdapter env s.data) (clamp x 0 s.width) ∧
    (step env s (.mouseMove x)).effects = s.effects ++
      [.updatePlayhead (pixelsToTime (dataAdapter env s.data) (clamp x 0 s.width)),
       .seek (pixelsToTime (dataAdapter env s.data) (clamp x 0 s.width))] :=
  ⟨rfl, rfl, rfl, rfl⟩

/-- Counterexample to claim C1 as stated: with a debounce timer armed by a
previous nonzero resize, a zero-width resize notification does change the
pending-resample timer state — the armed timer (id 0) is cancelled and the
stored timeout id is nulled, so the state is not left entirely unchanged. -/
theorem zero_resize_timer_change_cex :
    (step env0 (initState env0 400 200 3) (.windowResize 300)).pendingTimer
      = some 0 ∧
    (step env0 (step env0 (initState env0 400 200 3) (.windowResize 300))
        (.windowResize 0)).pendingTimer = none ∧
    (step env0 (step env0 (initState env0 400 200 3) (.windowResize 300))
          (.windowResize 0)).pendingTimer
      ≠ (step env0 (initState env0 400 200 3) (.windowResize 300)).pendingTimer := by
  refine ⟨rfl, rfl, ?_⟩
  intro h
  rw [show (step env0 (step env0 (initState env0 400 200 3) (.windowResize 300))
      (.windowResize 0)).pendingTimer = none from rfl] at h
  rw [show (step env0 (initState env0 400 200 3) (.windowResize 300)).pendingTimer
      = some 0 from rfl] at h
  exact Option.noConfusion h

/-- Claim C1 as amended: in every reachable state, a zero-width resize
notification leaves the stored width and the active dataset unchanged and
causes no resample call, but it does not leave the timer state untouched —
it cancels any armed debounce timer and nulls the stored timeout id. -/
theorem zero_resize_no_resample_cancels_timer (env : Env) (s : State)
    (h : Reachable env s) :
    (step env s (.windowResize 0)).width = s.width ∧
    (step env s (.windowResize 0)).data = s.data ∧
    resampleWidths (step env s (.windowResize 0)).effects
      = resampleWidths s.effects ∧
    (step env s (.windowResize 0)).resizeTimeoutId = none ∧
    (step env s (.windowResize 0)).pendingTimer = none := by
  have htimer := (reachable_inv env s h).2
  have hcl := windowResizeHandler_cleared (s := s) 0 htimer
  have hstep : step env s (.windowResize 0)
      = clearStoredTimeout { s with containerWidth := 0 } := by
    show windowResizeHandler s 0 = _
    simp only [windowResizeHandler, clearStoredTimeout_containerWidth]
    simp
  refine ⟨?_, ?_, ?_, ?_, ?_⟩
  · rw [hstep, clearStoredTimeout_width]
  · rw [hstep, clearStoredTimeout_data]
  · rw [hstep, clearStoredTimeout_resampleWidths]
  · rw [hstep]
    exact hcl.1
  · rw [hstep]
    exact hcl.2

/-- Witness for the amended C1 in a reachable state with an armed timer. -/
theorem zero_resize_no_resample_cancels_timer_witness :
    (step env0 (step env0 (initState env0 400 200 3) (.windowResize 300))
        (.windowResize 0)).width
      = (step env0 (initState env0 400 200 3) (.windowResize 300)).width ∧
    (step env0 (step env0 (initState env0 400 200 3) (.windowResize 300))
        (.windowResize 0)).data
      = (step env0 (initState env0 400 200 3) (.windowResize 300)).data ∧
    resampleWidths (step env0 (step env0 (initState env0 400 200 3)
        (.windowResize 300)) (.windowResize 0)).effects
      = resampleWidths
          (step env0 (initState env0 400 200 3) (.windowResize 300)).effects ∧
    (step env0 (step env0 (initState env0 400 200 3) (.windowResize 300))
        (.windowResize 0)).resizeTimeoutId = none ∧
    (step env0 (step env0 (initState env0 400 200 3) (.windowResize 300))
        (.windowResize 0)).pendingTimer = none :=
  zero_resize_no_resample_cancels_timer env0
    (step env0 (initState env0 400 200 3) (.windowResize 300))
    (Reachable.next (Reachable.init 400 200 3) (.windowResize 300))

/-- Claim C2: two nonzero-width resize notifications within the debounce
interval (so the first armed timer has not fired when the second arrives)
yield exactly one resample, at the width of the later notification; the
timer armed by the first notification is cancelled and a fresh one armed
when the second arrives. -/
theorem debounced_resize_single_resample (env : Env) (s : State)
    (w1 w2 t : ℚ) (h1 : w1 ≠ 0) (h2 : w2 ≠ 0) :
    (step env s (.windowResize w1)).pendingTimer = some s.nextTimerId ∧
    (step env (step env s (.windowResize w1)) (.windowResize w2)).effects
      = (step env s (.windowResize w1)).effects ++
        [.clearTimeout s.nextTimerId, .setStageWidth w2,
         .setTimeout (s.nextTimerId + 1)] ∧
    (step env (step env s (.windowResize w1)) (.windowResize w2)).pendingTimer
      = some (s.nextTimerId + 1) ∧
    resampleWidths (step env (step env (step env s (.windowResize w1))
        (.windowResize w2)) (.timerFire t)).effects
      = resampleWidths s.effects ++ [w2] ∧
    (step env (step env (step env s (.windowResize w1)) (.windowResize w2))
        (.timerFire t)).data = WaveformData.resampled w2 := by
  rcases hrid : s.resizeTimeoutId with _ | i <;>
    rcases hhl : s.highlightRect with _ | r <;>
      simp [step, windowResizeHandler, timerFireHandler, clearStoredTimeout,
            updateWaveform, updateHighlightRect, resampleWidths,
            List.filterMap_append, List.append_assoc, hrid, hhl, h1, h2]

/-- Witness for C2 with widths 300 and 350. -/
theorem debounced_resize_single_resample_witness :
    (300 : ℚ) ≠ 0 ∧ (350 : ℚ) ≠ 0 ∧
    resampleWidths (step env0 (step env0 (step env0 (initState env0 400 200 3)
        (.windowResize 300)) (.windowResize 350)) (.timerFire 7)).effects
      = resampleWidths (initState env0 400 200 3).effects ++ [350] :=
  ⟨by norm_num, by norm_num,
    (debounced_resize_single_resample env0 (initState env0 400 200 3)
      300 350 7 (by norm_num) (by norm_num)).2.2.2.1⟩

/-- Claim C3: in every reachable state the active dataset is never one
resampled to width zero, and any handler invocation that changes the stored
width changes it to a nonzero value. -/
theorem width_nonzero_dataset_invariant (env : Env) (s : State)
    (h : Reachable env s) (e : Event) :
    dataOk s.data ∧
    ((step env s e).width ≠ s.width → (step env s e).width ≠ 0) := by
  obtain ⟨hdata, htimer⟩ := reachable_inv env s h
  refine ⟨hdata, ?_⟩
  intro hne
  cases e with
  | playerPlay t => exact absurd rfl hne
  | playerPause t => exact absurd rfl hne
  | playerTimeUpdate t => exact absurd rfl hne
  | mouseDown x => exact absurd rfl hne
  | mouseMove x => exact absurd rfl hne
  | zoomviewDisplaying a b =>
      exact absurd (zoomviewDisplayingHandler_width env s a b) hne
  | windowResize w =>
      by_cases hw : w = 0
      · rw [show (step env s (.windowResize w)).width
            = if w = 0 then s.width else w from windowResizeHandler_width s w,
          if_pos hw] at hne
        exact absurd rfl hne
      · rw [show (step env s (.windowResize w)).width
            = if w = 0 then s.width else w from windowResizeHandler_width s w,
          if_neg hw]
        exact hw
  | timerFire t =>
      cases hp : s.pendingTimer with
      | none =>
          have hid : step env s (.timerFire t) = s := by
            show timerFireHandler env s t = s
            simp only [timerFireHandler, hp]
          rw [hid] at hne
          exact absurd rfl hne
      | some i =>
          have hwid : (step env s (.timerFire t)).width = s.containerWidth := by
            show (timerFireHandler env s t).width = _
            simp only [timerFireHandler, hp]
            rw [updateWaveform_width]
          rw [hwid]
          exact (timerOk_pending htimer hp).1

/-- Witness for C3 at a reachable state after a resize to width 300. -/
theorem width_nonzero_dataset_invariant_witness :
    dataOk (step env0 (initState env0 400 200 3) (.windowResize 300)).data ∧
    ((step env0 (step env0 (initState env0 400 200 3) (.windowResize 300))
        (.timerFire 7)).width
      ≠ (step env0 (initState env0 400 200 3) (.windowResize 300)).width →
     (step env0 (step env0 (initState env0 400 200 3) (.windowResize 300))
        (.timerFire 7)).width ≠ 0) :=
  width_nonzero_dataset_invariant env0
    (step env0 (initState env0 400 200 3) (.windowResize 300))
    (Reachable.next (Reachable.init 400 200 3) (.windowResize 300))
    (.timerFire 7)

lemma clearStoredTimeout_rid_none (s : State) :
    (clearStoredTimeout s).resizeTimeoutId = none := by
  rcases hrid : s.resizeTimeoutId with _ | i <;>
    simp [clearStoredTimeout, hrid]

lemma destroy_pendingTimer (s : State) :
    (destroy s).pendingTimer = (clearStoredTimeout s).pendingTimer := by
  rcases hst : (clearStoredTimeout s).stage with _ | st <;>
    simp [destroy, hst]

lemma destroy_resizeTimeoutId (s : State) :
    (destroy s).resizeTimeoutId = none := by
  rcases hst : (clearStoredTimeout s).stage with _ | st <;>
    simp [destroy, hst, clearStoredTimeout_rid_none]

lemma destroy_stage (s : State) : (destroy s).stage = none := by
  rcases hst : (clearStoredTimeout s).stage with _ | st <;>
    simp [destroy, hst]

/-- Claim C9: `destroy` cancels any armed debounce timer, and a second call
throws no error (the embedded `destroy` is a total function), leaves no
pending timer, and changes nothing — `destroy` is idempotent. -/
theorem destroy_cancels_timer_idempotent (env : Env) (s : State)
    (h : Reachable env s) :
    (destroy s).pendingTimer = none ∧
    (destroy s).resizeTimeoutId = none ∧
    (destroy s).stage = none ∧
    destroy (destroy s) = destroy s := by
  have htimer := (reachable_inv env s h).2
  have hcl := clearStoredTimeout_cleared
    (fun j hj => (timerOk_pending htimer hj).2)
  refine ⟨?_, destroy_resizeTimeoutId s, destroy_stage s,
    destroy_of_cleared (destroy_resizeTimeoutId s) (destroy_stage s)⟩
  rw [destroy_pendingTimer]
  exact hcl.2

/-- Witness for C9 at a reachable state with an armed timer. -/
theorem destroy_cancels_timer_idempotent_witness :
    (destroy (step env0 (initState env0 400 200 3)
        (.windowResize 300))).pendingTimer = none ∧
    (destroy (step env0 (initState env0 400 200 3)
        (.windowResize 300))).resizeTimeoutId = none ∧
    (destroy (step env0 (initState env0 400 200 3)
        (.windowResize 300))).stage = none ∧
    destroy (destroy (step env0 (initState env0 400 200 3)
        (.windowResize 300)))
      = destroy (step env0 (initState env0 400 200 3) (.windowResize 300)) :=
  destroy_cancels_timer_idempotent env0
    (step env0 (initState env0 400 200 3) (.windowResize 300))
    (Reachable.next (Reachable.init 400 200 3) (.windowResize 300))

/-- Claim C4: the first visible-range notification creates the highlight
region with fixed vertical inset (y = 11, height = view height − 22), fixed
opacity 0.3, fixed corner rounding and configured stroke/fill, and with its
horizontal bounds set from the times; every subsequent notification, and the
recomputation performed by the redraw cascade, changes only the region's `x`
and `width`, leaving all other attributes exactly as they were. -/
theorem highlight_fixed_style_update_xw (env : Env) (s s' : State)
    (a b a' b' t : ℚ) (hnone : s.highlightRect = none) (r : HighlightRect)
    (hsome : s'.highlightRect = some r) :
    (step env s (.zoomviewDisplaying a b)).highlightRect = some
      { startOffset := 0
        x := ((timeToPixels (dataAdapter env s.data) a : ℤ) : ℚ)
        y := 11
        width := ((timeToPixels (dataAdapter env s.data) b : ℤ) : ℚ) -
                 ((timeToPixels (dataAdapter env s.data) a : ℤ) : ℚ)
        height := s.height - 11 * 2
        stroke := env.overviewHighlightRectangleColor
        strokeWidth := 1
        fill := env.overviewHighlightRectangleColor
        opacity := 3 / 10
        cornerRadius := 2 } ∧
    (step env s' (.zoomviewDisplaying a' b')).highlightRect = some
      { r with
        x := ((timeToPixels (dataAdapter env s'.data) a' : ℤ) : ℚ)
        width := ((timeToPixels (dataAdapter env s'.data) b' : ℤ) : ℚ) -
                 ((timeToPixels (dataAdapter env s'.data) a' : ℤ) : ℚ) } ∧
    (updateWaveform env s' t).highlightRect = some
      { r with
        x := ((timeToPixels (dataAdapter env s'.data)
                s'.highlightRectStartTime : ℤ) : ℚ)
        width := ((timeToPixels (dataAdapter env s'.data)
                s'.highlightRectEndTime : ℤ) : ℚ) -
              ((timeToPixels (dataAdapter env s'.data)
                s'.highlightRectStartTime : ℤ) : ℚ) } := by
  refine ⟨?_, ?_, ?_⟩
  · simp [step, zoomviewDisplayingHandler, createHighlightRect,
          updateHighlightRect, hnone]
  · simp [step, zoomviewDisplayingHandler, updateHighlightRect, hsome]
  · simp [updateWaveform, updateHighlightRect, hsome]

lemma first_highlight_concrete :
    (step env0 (initState env0 400 200 3)
        (.zoomviewDisplaying 2 5)).highlightRect = some hrect0 := by
  norm_num [step, zoomviewDisplayingHandler, createHighlightRect,
            updateHighlightRect, initState, env0, dataAdapter, timeToPixels,
            hrect0]

lemma first_highlight_concrete_data :
    (step env0 (initState env0 400 200 3) (.zoomviewDisplaying 2 5)).data
      = WaveformData.resampled 400 := by
  rw [show (step env0 (initState env0 400 200 3) (.zoomviewDisplaying 2 5)).data
      = (initState env0 400 200 3).data from
      zoomviewDisplayingHandler_data env0 (initState env0 400 200 3) 2 5]
  norm_num [initState]

/-- Witness for C4: first notification `(2, 5)` creates the rectangle
`hrect0`; a following `(3, 6)` moves only `x`/`width` (to 330 and 331). -/
theorem highlight_fixed_style_update_xw_witness :
    (initState env0 400 200 3).highlightRect = none ∧
    (step env0 (initState env0 400 200 3)
        (.zoomviewDisplaying 2 5)).highlightRect = some hrect0 ∧
    (step env0 (step env0 (initState env0 400 200 3) (.zoomviewDisplaying 2 5))
        (.zoomviewDisplaying 3 6)).highlightRect
      = some { hrect0 with x := 330, width := 331 } := by
  refine ⟨rfl, first_highlight_concrete, ?_⟩
  have h := (highlight_fixed_style_update_xw env0 (initState env0 400 200 3)
      (step env0 (initState env0 400 200 3) (.zoomviewDisplaying 2 5))
      2 5 3 6 7 rfl hrect0 first_highlight_concrete).2.1
  rw [h, first_highlight_concrete_data]
  norm_num [dataAdapter, env0, timeToPixels, hrect0]

/-- Claim C8: firing the debounce timer resamples the original dataset to
the current container width and then performs the full redraw cascade, in
order: waveform layer draw, playhead reposition from the player's current
time, highlight recompute/redraw if and only if a region exists, points
update over `[0, pixelsToTime(width))`, segments update over the same
range. -/
theorem resample_redraw_cascade (env : Env) (s : State) (t : ℚ) (i : ℕ)
    (hp : s.pendingTimer = some i) :
    (step env s (.timerFire t)).data
      = WaveformData.resampled s.containerWidth ∧
    (step env s (.timerFire t)).playheadTime = t ∧
    (step env s (.timerFire t)).effects = s.effects ++
      [.resample s.containerWidth, .setStageWidth s.containerWidth,
       .drawWaveformLayer, .updatePlayhead t] ++
      (if s.highlightRect.isSome then
         [.setHighlightAttrs
            ((timeToPixels (dataAdapter env (.resampled s.containerWidth))
                s.highlightRectStartTime : ℤ) : ℚ)
            (((timeToPixels (dataAdapter env (.resampled s.containerWidth))
                s.highlightRectEndTime : ℤ) : ℚ) -
             ((timeToPixels (dataAdapter env (.resampled s.containerWidth))
                s.highlightRectStartTime : ℤ) : ℚ)),
          .drawHighlightLayer]
       else []) ++
      [.updatePoints 0 (pixelsToTime
          (dataAdapter env (.resampled s.containerWidth)) s.containerWidth),
       .updateSegments 0 (pixelsToTime
          (dataAdapter env (.resampled s.containerWidth)) s.containerWidth)] := by
  rcases hhl : s.highlightRect with _ | r <;>
    simp [step, timerFireHandler, updateWaveform, updateHighlightRect,
          hp, hhl, List.append_assoc]

/-- Witness for C8 after a resize to width 300 armed timer id 0. -/
theorem resample_redraw_cascade_witness :
    (step env0 (initState env0 400 200 3) (.windowResize 300)).pendingTimer
      = some 0 ∧
    (step env0 (step env0 (initState env0 400 200 3) (.windowResize 300))
        (.timerFire 7)).data
      = WaveformData.resampled
          (step env0 (initState env0 400 200 3)
            (.windowResize 300)).containerWidth ∧
    (step env0 (step env0 (initState env0 400 200 3) (.windowResize 300))
        (.timerFire 7)).playheadTime = 7 :=
  ⟨rfl,
    (resample_redraw_cascade env0
      (step env0 (initState env0 400 200 3) (.windowResize 300)) 7 0 rfl).1,
    (resample_redraw_cascade env0
      (step env0 (initState env0 400 200 3) (.windowResize 300)) 7 0 rfl).2.1⟩

end WaveformOverview
